import Mathlib

/-!
Shallow embedding of the block-construction core of the `2D-VQ-AE-2`
repository: `src/vq_ae/layers/conv_block.py` (DownBlock, UpBlock,
EnvelopBlock, PreActFixupResBlock) and `src/utils/train_helpers.py`
(`maybe_repeat_layer`).

Modelling conventions:
* A tensor is a function `ι → ℚ` over an arbitrary index type `ι`;
  per-element (broadcast) addition of a scalar bias and multiplication
  by a scalar scale are modelled pointwise.
* Module configurations (`ModuleConf`) are opaque values of a type
  parameter `α`; the external factory `hydra.utils.instantiate` is an
  arbitrary function argument, so theorems hold for every factory.
* The dict-merge `{**conv_conf, 'mode': m}` only ever overrides the
  key `'mode'`, so a config is modelled as a base payload together
  with an optional mode tag (`ModeConf`).
* Python runtime errors (`assert` failures, `TypeError` from
  `[x] * None`, `ZeroDivisionError` from `// 0`) are modelled with
  `Except String`, carrying the exception name.
* `nn.init.normal_` / `kaiming_normal_` / `xavier_normal_` draw random
  samples; they are modelled as arbitrary resampling functions passed
  to `init_weights` (the normal fill additionally receives
  `num_layers`, which the code folds into the std of the draw).
  `nn.init.constant_(w, 0)` is deterministic and modelled exactly.
-/

/-- A convolution sub-module as produced by the external factory: it owns a
flat weight tensor, an optional bias tensor, and its forward function. -/
structure Conv (ι : Type) where
  weight : List ℚ
  bias : Option (List ℚ)
  app : (ι → ℚ) → ι → ℚ

/-- The four-entry sub-configuration bundle `conv_conf[mode]` of
`PreActFixupResBlock`: keys `branch_conv1`, `branch_conv2`, `branch_conv3`,
`skip_conv`. -/
structure ConvBundle (α : Type) where
  branch_conv1 : α
  branch_conv2 : α
  branch_conv3 : α
  skip_conv : α

/-- `PreActFixupResBlock` state (src/vq_ae/layers/conv_block.py, lines
128-178): seven scalar biases, a scalar scale, three branch convolutions and
an optional skip path.  `bias1c` and `bias1d` are created exactly when
`skip_conv` is, so the three are bundled in one `Option`
(`(skip_conv, bias1c, bias1d)`). -/
structure PreActFixupResBlock (ι : Type) where
  activation : (ι → ℚ) → ι → ℚ
  bias1a : ℚ
  bias1b : ℚ
  bias2a : ℚ
  bias2b : ℚ
  bias3a : ℚ
  bias3b : ℚ
  bias4 : ℚ
  scale : ℚ
  branch_conv1 : Conv ι
  branch_conv2 : Conv ι
  branch_conv3 : Conv ι
  skip : Option (Conv ι × ℚ × ℚ)

/-- The list of valid modes of `PreActFixupResBlock.__init__`:
`assert mode in ("down", "same", "up", "out")` (line 139). -/
def validModes : List String := ["down", "same", "up", "out"]

/-- `PreActFixupResBlock.__init__` (lines 128-178).  The mode assertion is
checked first; then `conv_conf[mode]` is looked up, the bottleneck width
`branch_channels = max(max(in_channels, out_channels) // bottleneck_divisor, 1)`
is computed (a zero divisor raises `ZeroDivisionError`), the seven biases are
zero-initialised and scale is one, the three branch convolutions are built by
the factory at the bottleneck widths, and the skip convolution (with
`bias1c`, `bias1d`) is built unless `mode in ("same", "out")` and
`in_channels == out_channels`. -/
def PreActFixupResBlock.init {ι α γ : Type}
    (in_channels out_channels : Nat) (mode : String)
    (bottleneck_divisor : Nat) (activation : γ)
    (conv_conf : String → ConvBundle α)
    (act_factory : γ → (ι → ℚ) → ι → ℚ)
    (conv_factory : α → Nat → Nat → Conv ι) :
    Except String (PreActFixupResBlock ι) :=
  if mode ∈ validModes then
    if bottleneck_divisor = 0 then Except.error "ZeroDivisionError"
    else
      let cc := conv_conf mode
      let branch_channels := max (max in_channels out_channels / bottleneck_divisor) 1
      Except.ok
        { activation := act_factory activation
          bias1a := 0, bias1b := 0, bias2a := 0, bias2b := 0
          bias3a := 0, bias3b := 0, bias4 := 0
          scale := 1
          branch_conv1 := conv_factory cc.branch_conv1 in_channels branch_channels
          branch_conv2 := conv_factory cc.branch_conv2 branch_channels branch_channels
          branch_conv3 := conv_factory cc.branch_conv3 branch_channels out_channels
          skip :=
            if (mode = "same" ∨ mode = "out") ∧ in_channels = out_channels then
              none
            else
              some (conv_factory cc.skip_conv in_channels out_channels, 0, 0) }
  else Except.error "AssertionError"

/-- The skip path of `PreActFixupResBlock.forward` (lines 194-198):
`skip_conv(input + bias1c) + bias1d` when the skip convolution is present,
otherwise the input itself. -/
def PreActFixupResBlock.skip_path {ι : Type} (b : PreActFixupResBlock ι)
    (input : ι → ℚ) : ι → ℚ :=
  match b.skip with
  | some (sc, bias1c, bias1d) => fun i => sc.app (fun j => input j + bias1c) i + bias1d
  | none => input

/-- `PreActFixupResBlock.forward` (lines 180-200), following the source's
sequence of reassignments of `out`. -/
def PreActFixupResBlock.forward {ι : Type} (b : PreActFixupResBlock ι)
    (input : ι → ℚ) : ι → ℚ :=
  let out := input
  let out := b.activation (fun i => out i + b.bias1a)
  let out := b.branch_conv1.app (fun i => out i + b.bias1b)
  let out := b.activation (fun i => out i + b.bias2a)
  let out := b.branch_conv2.app (fun i => out i + b.bias2b)
  let out := b.activation (fun i => out i + b.bias3a)
  let out := b.branch_conv3.app (fun i => out i + b.bias3b)
  let out := fun i => out i * b.scale + b.bias4
  fun i => out i + b.skip_path input i

/-- `PreActFixupResBlock.initialize_weights` (lines 202-221).  The three
random fills are arbitrary resampling functions (`normal` also receives
`num_layers`, which the source folds into the std of the draw);
`nn.init.constant_(self.branch_conv3.weight, val=0)` deterministically
zero-fills `branch_conv3.weight`; the skip convolution's weight is resampled
only when present.  Nothing else is touched. -/
def PreActFixupResBlock.init_weights {ι : Type}
    (normal : ℤ → List ℚ → List ℚ) (kaiming xavier : List ℚ → List ℚ)
    (b : PreActFixupResBlock ι) (num_layers : ℤ) : PreActFixupResBlock ι :=
  { b with
    branch_conv1 := { b.branch_conv1 with weight := normal num_layers b.branch_conv1.weight }
    branch_conv2 := { b.branch_conv2 with weight := kaiming b.branch_conv2.weight }
    branch_conv3 := { b.branch_conv3 with weight := b.branch_conv3.weight.map (fun _ => 0) }
    skip := match b.skip with
      | some (sc, bias1c, bias1d) => some ({ sc with weight := xavier sc.weight }, bias1c, bias1d)
      | none => none }

/-- An element of a Python layer-spec sequence: either a module config or an
integer (the repetition count of the `(config, k)` shorthand). -/
inductive Item (α : Type) where
  | conf (c : α)
  | num (n : ℤ)

/-- Python truthiness of an `Item` as used by `filter(None, ...)`: a module
config is a nonempty mapping, hence truthy; an integer is truthy iff
nonzero. -/
def Item.truthy {α : Type} : Item α → Bool
  | .conf _ => true
  | .num n => decide (n ≠ 0)

/-- A value of type `Optional[ModuleConfList]`: Python `None`, a single
non-iterable config, or an iterable (list/tuple) of items. -/
inductive LayerSpec (α : Type) where
  | absent
  | atom (c : α)
  | iter (items : List (Item α))

/-- The inner dispatch of `instantiate_layers` (conv_block.py lines 105-110),
before `filter(None, ...)`: a non-iterable value `v` becomes the one-element
tuple `(v,)` (so `None` contributes a `none` entry); an iterable of exactly
two items whose second is an integer `k` becomes the first item repeated `k`
times (`range` of a negative count is empty); any other iterable is used
as-is. -/
def layerSeq {α : Type} : LayerSpec α → List (Option (Item α))
  | .absent => [none]
  | .atom c => [some (Item.conf c)]
  | .iter items =>
      match items with
      | [i0, Item.num k] => List.replicate k.toNat (some i0)
      | _ => items.map some

/-- `filter(None, seq)`: drop Python-falsy entries, in particular `None`. -/
def pyFilterNone {α : Type} : List (Option (Item α)) → List (Item α)
  | [] => []
  | none :: rest => pyFilterNone rest
  | some it :: rest =>
      if it.truthy then it :: pyFilterNone rest else pyFilterNone rest

/-- `instantiate_layers` (conv_block.py lines 97-112): normalize the layer
spec and instantiate every surviving entry with explicit
`in_channels`/`out_channels` overrides. -/
def instantiate_layers {α M : Type} (factory : Item α → Nat → Nat → M)
    (layers : LayerSpec α) (in_channels out_channels : Nat) : List M :=
  (pyFilterNone (layerSeq layers)).map (fun it => factory it in_channels out_channels)

/-- `EnvelopBlock` owns the ordered chain `nn.Sequential(*pre, envelope, *post)`. -/
structure EnvelopBlock (M : Type) where
  layers : List M

/-- `EnvelopBlock.__init__` (conv_block.py lines 87-118): pre-layers at width
`in_channels → in_channels`, the envelope at `in_channels → out_channels`,
post-layers at `out_channels → out_channels`, concatenated in order. -/
def EnvelopBlock.init {α M : Type} (factory : Item α → Nat → Nat → M)
    (envelop_conf : α) (in_channels out_channels : Nat)
    (pre_layers post_layers : LayerSpec α) : EnvelopBlock M :=
  { layers :=
      instantiate_layers factory pre_layers in_channels in_channels
        ++ [factory (Item.conf envelop_conf) in_channels out_channels]
        ++ instantiate_layers factory post_layers out_channels out_channels }

/-- `EnvelopBlock.forward` (lines 120-121): thread the input sequentially
through the chain. -/
def EnvelopBlock.forward {M T : Type} (app : M → T → T) (b : EnvelopBlock M)
    (x : T) : T :=
  b.layers.foldl (fun t m => app m t) x

/-- An opaque module config together with its optional `'mode'` entry; the
dict merge `{**conv_conf, 'mode': m}` of the source only ever overrides
`'mode'`. -/
structure ModeConf (α : Type) where
  base : α
  mode : Option String

/-- Python `[x] * n` where `n : Optional[int]`: multiplying a list by `None`
raises `TypeError`; a negative count yields the empty list. -/
def pyListMul {β : Type} (x : β) : Option ℤ → Except String (List β)
  | none => Except.error "TypeError"
  | some k => Except.ok (List.replicate k.toNat x)

/-- `DownBlock` owns its stage chain and the derived `out_channels`. -/
structure DownBlock (M : Type) where
  layers : List (EnvelopBlock M)
  out_channels : Nat

/-- `DownBlock.__init__` (conv_block.py lines 18-44): build the pre/post
layer lists by list multiplication (`TypeError` when the count is `None`),
then one `EnvelopBlock` per stage `j < n_down`, with envelope config tagged
`mode='down'`, mapping `in_channels * 2^j → in_channels * 2^(j+1)`, and
record `out_channels = in_channels * 2^n_down`. -/
def DownBlock.init {α M : Type} (in_channels : Nat) (n_down : Nat)
    (conv_conf : ModeConf α) (n_pre_layers n_post_layers : Option ℤ)
    (factory : Item (ModeConf α) → Nat → Nat → M) :
    Except String (DownBlock M) := do
  let pre_layers ← pyListMul { conv_conf with mode := some "same" } n_pre_layers
  let post_layers ← pyListMul { conv_conf with mode := some "same" } n_post_layers
  Except.ok
    { layers := (List.range n_down).map fun j =>
        EnvelopBlock.init factory { conv_conf with mode := some "down" }
          (in_channels * 2 ^ j) (in_channels * 2 ^ (j + 1))
          (LayerSpec.iter (pre_layers.map Item.conf))
          (LayerSpec.iter (post_layers.map Item.conf))
      out_channels := in_channels * 2 ^ n_down }

/-- `UpBlock` owns its stage chain and the derived `in_channels`. -/
structure UpBlock (M : Type) where
  layers : List (EnvelopBlock M)
  in_channels : Nat

/-- `UpBlock.__init__` (conv_block.py lines 54-80): as `DownBlock` but the
loop runs `j = n_up-1, ..., 0`, stage `j` mapping
`out_channels * 2^(j+1) → out_channels * 2^j` with envelope mode `'up'`, and
`in_channels = out_channels * 2^n_up` is recorded. -/
def UpBlock.init {α M : Type} (out_channels : Nat) (n_up : Nat)
    (conv_conf : ModeConf α) (n_pre_layers n_post_layers : Option ℤ)
    (factory : Item (ModeConf α) → Nat → Nat → M) :
    Except String (UpBlock M) := do
  let pre_layers ← pyListMul { conv_conf with mode := some "same" } n_pre_layers
  let post_layers ← pyListMul { conv_conf with mode := some "same" } n_post_layers
  Except.ok
    { layers := ((List.range n_up).reverse).map fun j =>
        EnvelopBlock.init factory { conv_conf with mode := some "up" }
          (out_channels * 2 ^ (j + 1)) (out_channels * 2 ^ j)
          (LayerSpec.iter (pre_layers.map Item.conf))
          (LayerSpec.iter (post_layers.map Item.conf))
      in_channels := out_channels * 2 ^ n_up }

/-- `maybe_repeat_layer` (src/utils/train_helpers.py lines 20-25): a
non-sequence is repeated `repetitions` times; a sequence must already have
exactly `repetitions` elements, else the `assert` fails. -/
def maybe_repeat_layer {α : Type} (layer : α ⊕ List α) (repetitions : ℤ) :
    Except String (List α) :=
  match layer with
  | Sum.inl a => Except.ok (List.replicate repetitions.toNat a)
  | Sum.inr l =>
      if (l.length : ℤ) = repetitions then Except.ok l
      else Except.error "AssertionError"

/-- Concrete one-point convolution used by witnesses. -/
def uConv : Conv Unit :=
  { weight := [1, 2], bias := some [3], app := fun f => f }

/-- Concrete convolution factory used by witnesses. -/
def uCF : Unit → Nat → Nat → Conv Unit := fun _ _ _ => uConv

/-- Concrete activation factory used by witnesses. -/
def uAF : Unit → (Unit → ℚ) → Unit → ℚ := fun _ f => f

/-- Concrete mode-keyed bundle used by witnesses. -/
def uCC : String → ConvBundle Unit := fun _ => ⟨(), (), (), ()⟩

/-- Concrete layer factory over natural-number configs, used by witnesses. -/
def natF : Item ℕ → Nat → Nat → ℕ := fun _ i o => i + o

/-- The layer spec a `DownBlock`/`UpBlock` stage passes to `EnvelopBlock`: the
`mode='same'`-tagged config repeated `k` times, as a Python list. -/
def stageLayerSpec {α : Type} (conv_conf : ModeConf α) (k : ℤ) :
    LayerSpec (ModeConf α) :=
  LayerSpec.iter
    ((List.replicate k.toNat { conv_conf with mode := some "same" }).map Item.conf)

/-- C1: For every PreActFixupResBlock and every input tensor x, forward(x)
returns branch + skip, where the branch is computed in pre-activation order
as h1 = branch_conv1(activation(x + bias1a) + bias1b);
h2 = branch_conv2(activation(h1 + bias2a) + bias2b);
h3 = branch_conv3(activation(h2 + bias3a) + bias3b);
branch = h3 * scale + bias4; and skip = skip_conv(x + bias1c) + bias1d when
skip_conv is present, else skip = x. -/
theorem C1_forward_branch_plus_skip {ι : Type} (b : PreActFixupResBlock ι)
    (x : ι → ℚ) :
    b.forward x = fun i =>
      (b.branch_conv3.app (fun j3 =>
          b.activation (fun k3 =>
            b.branch_conv2.app (fun j2 =>
                b.activation (fun k2 =>
                  b.branch_conv1.app (fun j1 =>
                      b.activation (fun k1 => x k1 + b.bias1a) j1 + b.bias1b) k2
                    + b.bias2a) j2 + b.bias2b) k3 + b.bias3a) j3 + b.bias3b) i
          * b.scale + b.bias4)
        + (match b.skip with
           | some (sc, bias1c, bias1d) => sc.app (fun j => x j + bias1c) i + bias1d
           | none => x i) := by
  funext i
  rcases hb : b.skip with _ | ⟨sc, c, d⟩ <;>
    simp [PreActFixupResBlock.forward, PreActFixupResBlock.skip_path, hb]

/-- C2: after any call to initialize_weights(num_layers), every entry of the
branch_conv3 weight tensor is exactly zero (`nn.init.constant_(w, 0)`), for
every block, every depth and every outcome of the random draws. -/
theorem C2_conv3_weight_zero {ι : Type} (normal : ℤ → List ℚ → List ℚ)
    (kaiming xavier : List ℚ → List ℚ) (b : PreActFixupResBlock ι)
    (num_layers : ℤ) :
    (b.init_weights normal kaiming xavier num_layers).branch_conv3.weight
      = List.replicate b.branch_conv3.weight.length 0 := by
  simp [PreActFixupResBlock.init_weights, List.map_const']

/-- C7: constructing a PreActFixupResBlock with a mode string outside
{down, same, up, out} fails with the construction-time assertion regardless
of every other argument (in particular the factories are never consulted);
for each of the four valid modes the assertion passes. -/
theorem C7_mode_assertion {ι α γ : Type} (in_channels out_channels : Nat)
    (mode : String) (d : Nat) (act : γ) (cc : String → ConvBundle α)
    (af : γ → (ι → ℚ) → ι → ℚ) (cf : α → Nat → Nat → Conv ι) :
    (mode ∉ validModes →
      PreActFixupResBlock.init in_channels out_channels mode d act cc af cf
        = Except.error "AssertionError")
    ∧ (mode ∈ validModes →
      PreActFixupResBlock.init in_channels out_channels mode d act cc af cf
        ≠ Except.error "AssertionError") := by
  constructor
  · intro h
    simp [PreActFixupResBlock.init, h]
  · intro h
    simp only [PreActFixupResBlock.init, if_pos h]
    split
    · intro hcontra
      simp at hcontra
    · intro hcontra
      simp at hcontra

/-- Witness for C7 at the invalid mode "diag" and the valid mode "down". -/
theorem C7_mode_assertion_witness :
    ("diag" ∉ validModes) ∧ ("down" ∈ validModes) ∧
      (PreActFixupResBlock.init (γ := Unit) 4 8 "diag" 2 () uCC uAF uCF
        = Except.error "AssertionError") ∧
      (PreActFixupResBlock.init (γ := Unit) 4 8 "down" 2 () uCC uAF uCF
        ≠ Except.error "AssertionError") :=
  ⟨by decide, by decide,
    (C7_mode_assertion 4 8 "diag" 2 () uCC uAF uCF).1 (by decide),
    (C7_mode_assertion 4 8 "down" 2 () uCC uAF uCF).2 (by decide)⟩

/-- C8: when a caller supplies an explicit layer sequence together with a
stated repetition count and the sequence's length differs from that count,
`maybe_repeat_layer` fails with the assertion error. -/
theorem C8_length_mismatch_assert {α : Type} (l : List α) (k : ℤ)
    (h : (l.length : ℤ) ≠ k) :
    maybe_repeat_layer (Sum.inr l) k = Except.error "AssertionError" := by
  simp [maybe_repeat_layer, h]

/-- Witness for C8: a one-element sequence with stated count 3. -/
theorem C8_length_mismatch_assert_witness :
    ((([5] : List ℕ).length : ℤ) ≠ 3) ∧
      maybe_repeat_layer (Sum.inr ([5] : List ℕ)) 3
        = Except.error "AssertionError" :=
  ⟨by decide, C8_length_mismatch_assert [5] 3 (by decide)⟩

/-- C3: for every mode in the four valid modes and all channel widths, the
constructed block has a skip convolution (with its bias1c/bias1d, bundled in
the `skip` field) iff mode is not in {same, out} or in_channels differs from
out_channels; and when the skip is absent the skip path of forward is the
identity on the input. -/
theorem C3_skip_existence {ι α γ : Type} (in_channels out_channels : Nat)
    (mode : String) (d : Nat) (act : γ) (cc : String → ConvBundle α)
    (af : γ → (ι → ℚ) → ι → ℚ) (cf : α → Nat → Nat → Conv ι)
    (hm : mode ∈ validModes) (hd : d ≠ 0) :
    ((PreActFixupResBlock.init in_channels out_channels mode d act cc af cf).map
        (fun b => b.skip.isSome)
      = Except.ok
          (decide (¬(mode = "same" ∨ mode = "out") ∨ in_channels ≠ out_channels)))
    ∧ (∀ (b : PreActFixupResBlock ι) (x : ι → ℚ),
        PreActFixupResBlock.skip_path { b with skip := none } x = x) := by
  constructor
  · simp only [PreActFixupResBlock.init, if_pos hm, if_neg hd]
    by_cases hc : (mode = "same" ∨ mode = "out") ∧ in_channels = out_channels
    · rw [if_pos hc]
      have hdec : decide (¬(mode = "same" ∨ mode = "out") ∨ in_channels ≠ out_channels)
          = false := by
        rw [decide_eq_false_iff_not]
        push_neg
        exact hc
      simp [Except.map, hdec]
      tauto
    · rw [if_neg hc]
      have hdec : decide (¬(mode = "same" ∨ mode = "out") ∨ in_channels ≠ out_channels)
          = true := by
        rw [decide_eq_true_eq]
        tauto
      simp [Except.map, hdec]
      tauto
  · intro b x
    rfl

/-- Witness for C3 at mode "same" with equal channel widths 4 = 4. -/
theorem C3_skip_existence_witness :
    ("same" ∈ validModes) ∧ ((2 : Nat) ≠ 0) ∧
      ((PreActFixupResBlock.init (γ := Unit) 4 4 "same" 2 () uCC uAF uCF).map
          (fun b => b.skip.isSome)
        = Except.ok
            (decide (¬(("same" : String) = "same" ∨ ("same" : String) = "out")
              ∨ (4 : Nat) ≠ 4))) :=
  ⟨by decide, by decide,
    (C3_skip_existence 4 4 "same" 2 () uCC uAF uCF (by decide) (by decide)).1⟩

/-- C6: branch_conv1 is instantiated at widths in_channels → w, branch_conv2
at w → w, branch_conv3 at w → out_channels, where
w = max(max(in_channels, out_channels) // bottleneck_divisor, 1), for every
positive bottleneck_divisor, every valid mode and every factory. -/
theorem C6_bottleneck_widths {ι α γ : Type} (in_channels out_channels : Nat)
    (mode : String) (d : Nat) (act : γ) (cc : String → ConvBundle α)
    (af : γ → (ι → ℚ) → ι → ℚ) (cf : α → Nat → Nat → Conv ι)
    (hm : mode ∈ validModes) (hd : 0 < d) :
    ((PreActFixupResBlock.init in_channels out_channels mode d act cc af cf).map
        (fun b => b.branch_conv1)
      = Except.ok (cf (cc mode).branch_conv1 in_channels
          (max (max in_channels out_channels / d) 1)))
    ∧ ((PreActFixupResBlock.init in_channels out_channels mode d act cc af cf).map
        (fun b => b.branch_conv2)
      = Except.ok (cf (cc mode).branch_conv2
          (max (max in_channels out_channels / d) 1)
          (max (max in_channels out_channels / d) 1)))
    ∧ ((PreActFixupResBlock.init in_channels out_channels mode d act cc af cf).map
        (fun b => b.branch_conv3)
      = Except.ok (cf (cc mode).branch_conv3
          (max (max in_channels out_channels / d) 1) out_channels)) := by
  have hd' : d ≠ 0 := by omega
  refine ⟨?_, ?_, ?_⟩ <;> simp [PreActFixupResBlock.init, if_pos hm, hd', Except.map]

/-- Witness for C6 at in_channels 3, out_channels 5, divisor 4, mode "down";
the bottleneck width is max(5 // 4, 1) = 1. -/
theorem C6_bottleneck_widths_witness :
    ("down" ∈ validModes) ∧ ((0 : Nat) < 4) ∧
      ((PreActFixupResBlock.init (γ := Unit) 3 5 "down" 4 () uCC uAF uCF).map
          (fun b => b.branch_conv1)
        = Except.ok (uCF (uCC "down").branch_conv1 3 (max (max 3 5 / 4) 1))) :=
  ⟨by decide, by decide,
    (C6_bottleneck_widths 3 5 "down" 4 () uCC uAF uCF (by decide) (by decide)).1⟩

/-- C10: initialize_weights only resamples the convolution weight tensors:
on any constructed block the seven scalar biases remain 0 and scale remains
1 afterwards (with bias1c/bias1d remaining 0 exactly when the skip path is
present), and on an arbitrary block every scalar parameter, the activation,
the convolutions' own bias tensors, and the skip-path scalars are unchanged. -/
theorem C10_init_weights_frame {ι α γ : Type} (normal : ℤ → List ℚ → List ℚ)
    (kaiming xavier : List ℚ → List ℚ) (num_layers : ℤ)
    (in_channels out_channels : Nat) (mode : String) (d : Nat) (act : γ)
    (cc : String → ConvBundle α) (af : γ → (ι → ℚ) → ι → ℚ)
    (cf : α → Nat → Nat → Conv ι) (hm : mode ∈ validModes) (hd : d ≠ 0) :
    ((PreActFixupResBlock.init in_channels out_channels mode d act cc af cf).map
        (fun b =>
          ((b.init_weights normal kaiming xavier num_layers).bias1a,
           (b.init_weights normal kaiming xavier num_layers).bias1b,
           (b.init_weights normal kaiming xavier num_layers).bias2a,
           (b.init_weights normal kaiming xavier num_layers).bias2b,
           (b.init_weights normal kaiming xavier num_layers).bias3a,
           (b.init_weights normal kaiming xavier num_layers).bias3b,
           (b.init_weights normal kaiming xavier num_layers).bias4,
           (b.init_weights normal kaiming xavier num_layers).scale))
      = Except.ok (0, 0, 0, 0, 0, 0, 0, 1))
    ∧ ((PreActFixupResBlock.init in_channels out_channels mode d act cc af cf).map
        (fun b =>
          (b.init_weights normal kaiming xavier num_layers).skip.map
            (fun s => (s.2.1, s.2.2)))
      = Except.ok
          (if (mode = "same" ∨ mode = "out") ∧ in_channels = out_channels then
            none
          else some ((0 : ℚ), (0 : ℚ))))
    ∧ (∀ b : PreActFixupResBlock ι,
        (b.init_weights normal kaiming xavier num_layers).bias1a = b.bias1a
        ∧ (b.init_weights normal kaiming xavier num_layers).bias1b = b.bias1b
        ∧ (b.init_weights normal kaiming xavier num_layers).bias2a = b.bias2a
        ∧ (b.init_weights normal kaiming xavier num_layers).bias2b = b.bias2b
        ∧ (b.init_weights normal kaiming xavier num_layers).bias3a = b.bias3a
        ∧ (b.init_weights normal kaiming xavier num_layers).bias3b = b.bias3b
        ∧ (b.init_weights normal kaiming xavier num_layers).bias4 = b.bias4
        ∧ (b.init_weights normal kaiming xavier num_layers).scale = b.scale
        ∧ (b.init_weights normal kaiming xavier num_layers).activation = b.activation
        ∧ (b.init_weights normal kaiming xavier num_layers).branch_conv1.bias
            = b.branch_conv1.bias
        ∧ (b.init_weights normal kaiming xavier num_layers).branch_conv2.bias
            = b.branch_conv2.bias
        ∧ (b.init_weights normal kaiming xavier num_layers).branch_conv3.bias
            = b.branch_conv3.bias
        ∧ (b.init_weights normal kaiming xavier num_layers).skip.map
              (fun s => (s.1.bias, s.2.1, s.2.2))
            = b.skip.map (fun s => (s.1.bias, s.2.1, s.2.2))) := by
  refine ⟨?_, ?_, ?_⟩
  · simp [PreActFixupResBlock.init, if_pos hm, hd, PreActFixupResBlock.init_weights,
      Except.map]
  · by_cases hc : (mode = "same" ∨ mode = "out") ∧ in_channels = out_channels
    · simp [PreActFixupResBlock.init, if_pos hm, hd, PreActFixupResBlock.init_weights,
        Except.map, hc]
    · simp [PreActFixupResBlock.init, if_pos hm, hd, PreActFixupResBlock.init_weights,
        Except.map, hc]
  · intro b
    rcases hb : b.skip with _ | ⟨sc, c1, d1⟩ <;>
      simp [PreActFixupResBlock.init_weights, hb]

/-- Witness for C10 at mode "down" (skip present), channels 3 → 6, divisor 2. -/
theorem C10_init_weights_frame_witness :
    ("down" ∈ validModes) ∧ ((2 : Nat) ≠ 0) ∧
      ((PreActFixupResBlock.init (γ := Unit) 3 6 "down" 2 () uCC uAF uCF).map
          (fun b =>
            ((b.init_weights (fun _ w => w) id id 8).bias1a,
             (b.init_weights (fun _ w => w) id id 8).bias1b,
             (b.init_weights (fun _ w => w) id id 8).bias2a,
             (b.init_weights (fun _ w => w) id id 8).bias2b,
             (b.init_weights (fun _ w => w) id id 8).bias3a,
             (b.init_weights (fun _ w => w) id id 8).bias3b,
             (b.init_weights (fun _ w => w) id id 8).bias4,
             (b.init_weights (fun _ w => w) id id 8).scale))
        = Except.ok (0, 0, 0, 0, 0, 0, 0, 1)) :=
  ⟨by decide, by decide,
    (C10_init_weights_frame (fun _ w => w) id id 8 3 6 "down" 2 () uCC uAF uCF
      (by decide) (by decide)).1⟩

/-- `filter(None, ...)` keeps every entry of a replicated truthy config. -/
theorem pyFilterNone_replicate_conf {α : Type} (n : Nat) (c : α) :
    pyFilterNone (List.replicate n (some (Item.conf c)))
      = List.replicate n (Item.conf c) := by
  induction n with
  | zero => rfl
  | succ m ih =>
      simp [List.replicate_succ, pyFilterNone, Item.truthy, ih]

/-- `filter(None, ...)` keeps every entry of a list of truthy configs. -/
theorem pyFilterNone_map_conf {α : Type} (cs : List α) :
    pyFilterNone (cs.map (some ∘ Item.conf)) = cs.map Item.conf := by
  induction cs with
  | nil => rfl
  | cons a t ih =>
      simp [pyFilterNone, Item.truthy, ih]

/-- A list of configs never matches the `(config, k)` shorthand pattern, so
the normalization dispatch uses it as-is. -/
theorem layerSeq_conf_list {α : Type} (cs : List α) :
    layerSeq (LayerSpec.iter (cs.map Item.conf)) = (cs.map Item.conf).map some := by
  rcases cs with _ | ⟨a, _ | ⟨b, _ | ⟨c, t⟩⟩⟩ <;> rfl

/-- C5: EnvelopBlock layer-spec normalization: absent yields no layers; a
two-element sequence whose second element is an integer k yields the first
element repeated k times (including zero times); any other iterable (a list
of configs) yields its elements in order; a single non-iterable config
yields one layer; and the constructed chain is pre-layers at in→in, then the
envelope at in→out, then post-layers at out→out, executed sequentially in
that order on forward. -/
theorem C5_layer_normalization {α M T : Type} (factory : Item α → Nat → Nat → M)
    (app : M → T → T) (in_channels out_channels : Nat) :
    (instantiate_layers factory LayerSpec.absent in_channels out_channels = [])
    ∧ (∀ (c : α) (k : ℤ), 0 ≤ k →
        instantiate_layers factory (LayerSpec.iter [Item.conf c, Item.num k])
            in_channels out_channels
          = List.replicate k.toNat (factory (Item.conf c) in_channels out_channels))
    ∧ (∀ cs : List α,
        instantiate_layers factory (LayerSpec.iter (cs.map Item.conf))
            in_channels out_channels
          = cs.map (fun c => factory (Item.conf c) in_channels out_channels))
    ∧ (∀ c : α,
        instantiate_layers factory (LayerSpec.atom c) in_channels out_channels
          = [factory (Item.conf c) in_channels out_channels])
    ∧ (∀ (envelop_conf : α) (pre post : LayerSpec α),
        (EnvelopBlock.init factory envelop_conf in_channels out_channels
            pre post).layers
          = instantiate_layers factory pre in_channels in_channels
              ++ [factory (Item.conf envelop_conf) in_channels out_channels]
              ++ instantiate_layers factory post out_channels out_channels)
    ∧ (∀ (envelop_conf : α) (pre post : LayerSpec α) (x : T),
        EnvelopBlock.forward app
            (EnvelopBlock.init factory envelop_conf in_channels out_channels
              pre post) x
          = List.foldl (fun t m => app m t)
              (app (factory (Item.conf envelop_conf) in_channels out_channels)
                (List.foldl (fun t m => app m t) x
                  (instantiate_layers factory pre in_channels in_channels)))
              (instantiate_layers factory post out_channels out_channels)) := by
  refine ⟨rfl, ?_, ?_, fun c => rfl, fun e pre post => rfl, ?_⟩
  · intro c k _
    simp [instantiate_layers, layerSeq, pyFilterNone_replicate_conf]
  · intro cs
    rw [instantiate_layers, layerSeq_conf_list, List.map_map, pyFilterNone_map_conf,
      List.map_map]
    rfl
  · intro e pre post x
    simp [EnvelopBlock.forward, EnvelopBlock.init, List.foldl_append]

/-- Witness for C5: the `(config, 2)` shorthand over natural-number configs. -/
theorem C5_layer_normalization_witness :
    (0 ≤ (2 : ℤ)) ∧
      instantiate_layers natF (LayerSpec.iter [Item.conf 7, Item.num 2]) 1 1
        = List.replicate (2 : ℤ).toNat (natF (Item.conf 7) 1 1) :=
  ⟨by decide,
    (C5_layer_normalization natF (fun m t => m + t) 1 1).2.1 7 2 (by decide)⟩

/-- Reversing `range n` and mapping is mapping the reflected index. -/
theorem reverse_range_map {β : Type} (n : Nat) (g : Nat → β) :
    ((List.range n).reverse).map g
      = (List.range n).map (fun j => g (n - 1 - j)) := by
  apply List.ext_getElem
  · simp
  · intro i h1 h2
    simp [List.getElem_reverse]

/-- C4: DownBlock(C, N) builds exactly N EnvelopBlocks, stage j tagged
mode 'down' mapping C·2^j → C·2^(j+1), and exposes out_channels = C·2^N;
UpBlock(C, N) builds N EnvelopBlocks, stage j tagged mode 'up' mapping
C·2^(N−j) → C·2^(N−j−1), and exposes in_channels = C·2^N. -/
theorem C4_channel_pyramid {α M : Type} (C N : Nat) (cc : ModeConf α)
    (p q : ℤ) (f : Item (ModeConf α) → Nat → Nat → M) :
    ((DownBlock.init C N cc (some p) (some q) f).map (fun b => b.layers)
        = Except.ok ((List.range N).map fun j =>
            EnvelopBlock.init f { cc with mode := some "down" }
              (C * 2 ^ j) (C * 2 ^ (j + 1))
              (stageLayerSpec cc p) (stageLayerSpec cc q)))
    ∧ ((DownBlock.init C N cc (some p) (some q) f).map (fun b => b.out_channels)
        = Except.ok (C * 2 ^ N))
    ∧ ((UpBlock.init C N cc (some p) (some q) f).map (fun b => b.layers)
        = Except.ok ((List.range N).map fun j =>
            EnvelopBlock.init f { cc with mode := some "up" }
              (C * 2 ^ (N - j)) (C * 2 ^ (N - j - 1))
              (stageLayerSpec cc p) (stageLayerSpec cc q)))
    ∧ ((UpBlock.init C N cc (some p) (some q) f).map (fun b => b.in_channels)
        = Except.ok (C * 2 ^ N)) := by
  refine ⟨?_, ?_, ?_, ?_⟩
  · simp [DownBlock.init, pyListMul, Except.map, Except.bind, bind, stageLayerSpec]
  · simp [DownBlock.init, pyListMul, Except.map, Except.bind, bind]
  · simp only [UpBlock.init, pyListMul, Except.map, Except.bind, bind,
      stageLayerSpec]
    rw [reverse_range_map]
    refine congrArg Except.ok (List.map_congr_left ?_)
    intro j hj
    rw [List.mem_range] at hj
    have e1 : N - 1 - j + 1 = N - j := by omega
    have e2 : N - 1 - j = N - j - 1 := by omega
    rw [e1, e2]
  · simp [UpBlock.init, pyListMul, Except.map, Except.bind, bind]

/-- C9 evaluation: supplying `n_pre_layers = None` makes `[conf] * None`
raise `TypeError` in both `DownBlock` and `UpBlock` construction — the
`Optional[int]` annotation (and `EnvelopBlock`'s own handling of an absent
spec) notwithstanding — while the falsy count 0 succeeds with stages whose
only layer is the envelope. -/
theorem C9_none_count_TypeError :
    (DownBlock.init (α := Unit) (M := Unit) 1 1 ⟨(), none⟩ none (some 0)
        (fun _ _ _ => ()) = Except.error "TypeError")
    ∧ (UpBlock.init (α := Unit) (M := Unit) 1 1 ⟨(), none⟩ none (some 0)
        (fun _ _ _ => ()) = Except.error "TypeError")
    ∧ ((DownBlock.init (α := Unit) (M := Unit) 1 1 ⟨(), none⟩ (some 0) (some 0)
          (fun _ _ _ => ())).map (fun b => b.layers.map (fun e => e.layers.length))
        = Except.ok [1]) :=
  ⟨rfl, rfl, rfl⟩
